import Mathlib

/-!
# The dynamic-API read handler of uadmin

A shallow embedding of `dAPIReadHandler` and `createAPIReadLog`
(`d_api_read.go`) and of `Trail` (`trail.go`).

The handler is a Go function with effects.  It is embedded as a pure function
from an environment (the collaborators the handler calls but which live in
other files of the package), a request and an optional session to an
`Outcome`: the ordered list of the calls the handler makes to the outside
(registry lookups, capability hooks, response writes, database access, audit
log) and, when the run ends in a Go run-time fault, the fault.

Go strings are embedded as Lean `String`s.  The bytes the handler looks at
(`/`, `?`, the braces of the skeleton) are ASCII, so working on characters
instead of bytes changes nothing.
-/

namespace Uadmin

/-! ## Pieces of the Go standard library used by the handler -/

/-- Go `strings.Split(s, sep)` for a one-byte separator, on character lists:
the pieces between the separators, always at least one piece. -/
def splitOnChar (sep : Char) : List Char → List (List Char)
  | [] => [[]]
  | c :: cs =>
    if c = sep then [] :: splitOnChar sep cs
    else
      match splitOnChar sep cs with
      | [] => [[c]]
      | p :: ps => (c :: p) :: ps

/-- Go `strings.Split(s, sep)` for a one-byte separator. -/
def strings_Split (s : String) (sep : Char) : List String :=
  (splitOnChar sep s.data).map String.mk

/-- The replacement loop of Go `strings.Replace(s, old, new, -1)` for a
non-empty `old`: scan left to right, replace every non-overlapping occurrence
of `old` by `new`.  The first argument counts the characters of a matched
occurrence that are still to be skipped. -/
def replaceAux (old new : List Char) : Nat → List Char → List Char
  | _, [] => []
  | k + 1, _ :: cs => replaceAux old new k cs
  | 0, c :: cs =>
    if old.isPrefixOf (c :: cs) then new ++ replaceAux old new (old.length - 1) cs
    else c :: replaceAux old new 0 cs

/-- Go `strings.Replace(s, old, new, -1)` (`old` non-empty). -/
def strings_Replace (s old new : String) : String :=
  ⟨replaceAux old.data new.data 0 s.data⟩

/-- Search loop of Go `strings.Contains(s, substr)` on character lists. -/
def containsAux (sub : List Char) : List Char → Bool
  | [] => sub.isEmpty
  | c :: cs => sub.isPrefixOf (c :: cs) || containsAux sub cs

/-- Go `strings.Contains(s, substr)`. -/
def strings_Contains (s substr : String) : Bool :=
  containsAux substr.data s.data

/-- Number of `?` placeholders in a piece of SQL text
(Go `strings.Count(s, "?")`). -/
def placeholders (s : String) : Nat :=
  s.data.count '?'

/-- Go conversion `int(x)` of a `uint` value on a 64-bit platform. -/
def goInt (n : Nat) : Int :=
  if n % 2 ^ 64 < 2 ^ 63 then (n % 2 ^ 64 : Nat) else (n % 2 ^ 64 : Nat) - 2 ^ 64

/-! ## Data model -/

/-- A value bound to a placeholder (`interface{}` in the Go code). -/
inductive Value where
  | str (s : String)
  | int (n : Int)
  deriving DecidableEq, Repr

/-- Request parameters, Go `map[string]string`. -/
abbrev Params := List (String × String)

/-- Go map indexing `params[k]`: the zero value `""` when the key is absent. -/
def Params.index (p : Params) (k : String) : String :=
  (p.lookup k).getD ""

/-- The fields of `User` the handler touches. -/
structure User where
  Username : String
  deriving DecidableEq, Repr

/-- The session: `*Session` in Go, `none` standing for the nil pointer. -/
structure Session where
  User : User
  deriving DecidableEq, Repr

/-- The fields of `*http.Request` the handler itself reads; everything else of
the request is only handed on to collaborators. -/
structure Request where
  Path : String
  RemoteAddr : String
  deriving DecidableEq, Repr

/-- A model instance as far as the handler sees it: the primary key read by
`GetID` (a Go `uint`) and the remaining columns. -/
structure Entity where
  ID : Nat
  fields : List (String × Value)
  deriving DecidableEq, Repr

/-- Go `GetID(m)`: the primary key, a `uint`. -/
def GetID (m : Entity) : Nat :=
  m.ID % 2 ^ 64

/-- The capability hooks of a model: `model.Interface().(APIDisabledReader)`
and its siblings succeed exactly when the field is `some`. -/
structure Model where
  APIDisabledReader : Option (Request → Bool)
  APIPublicReader : Option (Request → Bool)
  APILogReader : Option (Request → Bool)

/-- Schema metadata handed to a list modifier. -/
structure SchemaInfo where
  TableName : String
  deriving DecidableEq, Repr

/-- The parts of `ModelSchema` the handler uses.  `ListModifier` is `none` for
a nil function value. -/
structure ModelSchema where
  TableName : String
  ListModifier : Option (SchemaInfo → User → String × List Value)

/-- The `m` handed to the driver: a model array or a slice of maps. -/
inductive Dest where
  | modelArray (modelName : String)
  | maps
  deriving DecidableEq, Repr

/-- A dialect driver: `apiRead(SQL, args, m, customSchema)` returning
`(rowsCount, m, err)`; an error replaces the other two results. -/
structure Driver where
  apiRead : String → List Value → Dest → Bool → Except String (Int × List Entity)

/-- Levels of `zapcore`. -/
inductive ZapLevel where
  | Debug | Info | Warn | Error
  deriving DecidableEq, Repr

/-- An operand of a `Trail` call after the format string. -/
inductive Operand where
  | text (s : String)
  | values (vs : List Value)
  deriving DecidableEq, Repr

/-- The `result` member of the success payload. -/
inductive Result where
  | null
  | one (m : Entity)
  | many (ms : List Entity)
  deriving DecidableEq, Repr

/-- The `Activity` of an audit entry before `json.Marshal`. -/
structure Activity where
  params : Params
  rows_count : Int
  _IP : String
  deriving DecidableEq, Repr

/-- The action kinds of the audit log the read path uses
(`Action(0).Read()`). -/
inductive Action where
  | Read
  deriving DecidableEq, Repr

/-- The `Log` record saved by `createAPIReadLog`. -/
structure Log where
  Username : String
  Action : Action
  TableName : String
  TableID : Int
  Activity : Activity
  deriving DecidableEq, Repr

/-- A call the handler makes to the outside, in the order it makes them. -/
inductive Event where
  | NewModel (modelName : String) (pointer : Bool)
  | getSchema (modelName : String)
  | APIDisabledRead
  | APIPublicRead
  | GetAccess (user : User) (modelName : String)
  | APILogRead
  | WriteHeader (code : Nat)
  | ReturnJSON (status : String) (err_msg : String)
  | ListModifier (user : User)
  | zapWrite (level : ZapLevel) (msg : String) (operands : List Operand)
  | NewModelArray (modelName : String) (pointer : Bool)
  | apiRead (SQL : String) (args : List Value) (m : Dest) (customSchema : Bool)
  | Get (modelName : String) (query : String) (args : List Value)
  | Preload (m : Entity)
  | getQueryM2M (modelName : String) (customSchema : Bool)
  | returnDAPIJSON (status : String) (result : Result) (params : Params)
      (command : String) (modelName : String)
  | LogSave (entry : Log)
  deriving DecidableEq, Repr

/-- What a run of the handler does: its calls, and the run-time fault that
ended it, if any. -/
structure Outcome where
  events : List Event
  fault : Option String
  deriving DecidableEq, Repr

/-- The collaborators of the handler defined elsewhere in the package, and the
package-level settings it reads. -/
structure Env where
  NewModel : String → Model
  getSchema : String → ModelSchema
  getURLArgs : Request → Params
  GetAccessRead : User → String → Bool
  APILogRead : Bool
  getQueryFields : Request → Params → String → String × Bool
  getQueryJoin : Request → Params → String → String
  getFilters : Request → Params → String → SchemaInfo → String × List Value
  getQueryGroupBy : Request → Params → String
  getQueryOrder : Request → Params → String
  getQueryLimit : Request → Params → String
  getQueryOffset : Request → Params → String
  DebugDB : Bool
  ReportingLevel : Int
  sqlDialect : String → Option Driver
  DatabaseType : String
  Get : String → String → List Value → Entity
  Preload : Entity → Entity
  getQueryM2M : Params → List Entity → Bool → String → List Entity

/-! ## `trail.go` -/

/-- Reporting level `DEBUG`. -/
def DEBUG : Int := 0

/-- Reporting level `ERROR`. -/
def ERROR : Int := 5

/-- The table `zapMap`; a level outside the table reads the zero value of
`zapcore.Level`, which is `InfoLevel`. -/
def zapMap (level : Int) : ZapLevel :=
  if level = 0 then .Debug
  else if level = 1 then .Debug
  else if level = 2 then .Info
  else if level = 3 then .Info
  else if level = 4 then .Warn
  else if level = 5 then .Error
  else if level = 6 then .Error
  else if level = 7 then .Warn
  else if level = 8 then .Error
  else .Info

/-- `Trail(level, msg, i...)`: the message is written to the zap logger (built
from the development configuration, which enables every level) when the level
reaches `ReportingLevel`.  The message is recorded unformatted. -/
def Trail (env : Env) (level : Int) (msg : String) (i : List Operand) : List Event :=
  if level ≥ env.ReportingLevel then [.zapWrite (zapMap level) msg i] else []

/-! ## `d_api_read.go` -/

/-- The fault of evaluating `&s.User` with `s == nil`. -/
def nilDereference : String :=
  "invalid memory address or nil pointer dereference"

/-- Run `o` after the calls `evs`. -/
def Outcome.after (evs : List Event) (o : Outcome) : Outcome :=
  ⟨evs ++ o.events, o.fault⟩

/-- The 401 answer of lines 28-32 and 43-47. -/
def permissionDenied : List Event :=
  [.WriteHeader 401, .ReturnJSON "error" "Permission denied"]

/-- Lines 22-35.  The second component is `none` when the handler has answered
401 and returned, and the value of `allow` otherwise. -/
def disableCheck (model : Model) (r : Request) : List Event × Option Bool :=
  match model.APIDisabledReader with
  | some disableReader =>
    let allow := disableReader r
    let allow := !allow
    if !allow then (.APIDisabledRead :: permissionDenied, none)
    else ([.APIDisabledRead], some allow)
  | none => ([], some false)

/-- Lines 36-38. -/
def publicCheck (model : Model) (r : Request) (allow : Bool) : List Event × Bool :=
  match model.APIPublicReader with
  | some publicReader => ([.APIPublicRead], publicReader r)
  | none => ([], allow)

/-- Lines 39-41. -/
def roleCheck (env : Env) (modelName : String) (s : Option Session) (allow : Bool) :
    List Event × Bool :=
  if !allow then
    match s with
    | some sess => ([.GetAccess sess.User modelName], env.GetAccessRead sess.User modelName)
    | none => ([], allow)
  else ([], allow)

/-- Lines 21-49, the permission gate: the calls made, and whether the handler
goes on (`true`) or has answered 401 and returned (`false`). -/
def checkPermission (env : Env) (model : Model) (modelName : String) (r : Request)
    (s : Option Session) : List Event × Bool :=
  let dc := disableCheck model r
  match dc.2 with
  | none => (dc.1, false)
  | some allow =>
    let pc := publicCheck model r allow
    let rc := roleCheck env modelName s pc.2
    if !rc.2 then (dc.1 ++ pc.1 ++ rc.1 ++ permissionDenied, false)
    else (dc.1 ++ pc.1 ++ rc.1, true)

/-- Lines 51-55. -/
def logRequired (env : Env) (model : Model) (r : Request) : List Event × Bool :=
  match model.APILogReader with
  | some logReader => ([.APILogRead], logReader r)
  | none => ([], env.APILogRead)

/-- Lines 206-223. -/
def createAPIReadLog (modelName : String) (ID : Int) (rowsCount : Int) (params : Params)
    (user : User) (r : Request) : List Event :=
  [.LogSave
    { Username := user.Username
      Action := .Read
      TableName := modelName
      TableID := ID
      Activity := { params := params, rows_count := rowsCount, _IP := r.RemoteAddr } }]

/-- The function literals of lines 164-168 and 190-194, run to completion
after the response: when `log` holds, `&s.User` is evaluated and the entry
created. -/
def logAsync (log : Bool) (s : Option Session) (create : User → List Event) : Outcome :=
  if log then
    match s with
    | some sess => ⟨create sess.User, none⟩
    | none => ⟨[], some nilDereference⟩
  else ⟨[], none⟩

/-- Lines 61-74: the skeleton with table name and projection substituted. -/
def selectFrom (params : Params) (tableName f : String) : String :=
  let SQL :=
    if params.lookup "$distinct" = some "1" then
      "SELECT DISTINCT \x7bFIELDS\x7d FROM \x7bTABLE_NAME\x7d"
    else "SELECT \x7bFIELDS\x7d FROM \x7bTABLE_NAME\x7d"
  let SQL := strings_Replace SQL "\x7bTABLE_NAME\x7d" tableName
  if f ≠ "" then strings_Replace SQL "\x7bFIELDS\x7d" f
  else strings_Replace SQL "\x7bFIELDS\x7d" "*"

/-- Lines 84-97.  `none` is the fault of `&s.User` on a nil session; otherwise
the calls made and the new `q` and `args`. -/
def applyListModifier (schema : ModelSchema) (s : Option Session) (q : String)
    (args : List Value) : Option (List Event × String × List Value) :=
  match schema.ListModifier with
  | none => some ([], q, args)
  | some listModifier =>
    match s with
    | none => none
    | some sess =>
      let lm := listModifier ⟨schema.TableName⟩ sess.User
      if lm.1 ≠ "" then
        some ([.ListModifier sess.User],
          (if q ≠ "" then q ++ " AND " else q) ++ lm.1, args ++ lm.2)
      else some ([.ListModifier sess.User], q, args)

/-- The shape of lines 77-79, 98-100 and 102-117: `SQL += kw + frag` when
`frag` is not empty. -/
def appendClause (SQL kw frag : String) : String :=
  if frag ≠ "" then SQL ++ (kw ++ frag) else SQL

/-- Lines 98-117 applied to the text built so far. -/
def appendTail (env : Env) (r : Request) (params : Params) (SQL q : String) : String :=
  let SQL := appendClause SQL " WHERE " q
  let SQL := appendClause SQL " GROUP BY " (env.getQueryGroupBy r params)
  let SQL := appendClause SQL " ORDER BY " (env.getQueryOrder r params)
  let SQL := appendClause SQL " LIMIT " (env.getQueryLimit r params)
  appendClause SQL " OFFSET " (env.getQueryOffset r params)

/-- Lines 119-203 of the list branch, from the finished `SQL` and `args`. -/
def executeList (env : Env) (r : Request) (s : Option Session) (modelName : String)
    (params : Params) (log : Bool) (SQL : String) (args : List Value)
    (customSchema : Bool) : Outcome :=
  let evDebug :=
    if env.DebugDB then Trail env DEBUG SQL [] ++ Trail env DEBUG "%#v" [.values args]
    else []
  let evArr : List Event := if !customSchema then [.NewModelArray modelName true] else []
  let dest : Dest := if !customSchema then .modelArray modelName else .maps
  match env.sqlDialect env.DatabaseType with
  | none =>
    ⟨evDebug ++ evArr,
      some ("dAPIReadHandler database '" ++ env.DatabaseType ++ "' not supported")⟩
  | some driver =>
    match driver.apiRead SQL args dest customSchema with
    | .error err =>
      ⟨evDebug ++ evArr ++
        [.apiRead SQL args dest customSchema, .WriteHeader 500,
          .ReturnJSON "error" ("Unable to execute SQL. " ++ err)] ++
        Trail env ERROR "SQL: %v\nARGS: %v" [.text SQL, .values args], none⟩
    | .ok res =>
      let rowsCount := res.1
      let preload := decide (params.index "$preload" = "1")
      let evPre : List Event := if preload then res.2.map .Preload else []
      let m := if preload then res.2.map env.Preload else res.2
      let m := env.getQueryM2M params m customSchema modelName
      (logAsync log s
          (fun user => createAPIReadLog modelName 0 rowsCount params user r)).after
        (evDebug ++ evArr ++ [.apiRead SQL args dest customSchema] ++ evPre ++
          [.getQueryM2M modelName customSchema,
            .returnDAPIJSON "ok" (.many m) params "read" modelName])

/-- Lines 57-169, the branch "Read Multiple". -/
def readMultiple (env : Env) (r : Request) (s : Option Session) (modelName : String)
    (params : Params) (schema : ModelSchema) (log : Bool) : Outcome :=
  let tableName := schema.TableName
  let fc := env.getQueryFields r params tableName
  let SQL := selectFrom params tableName fc.1
  let SQL := appendClause SQL " " (env.getQueryJoin r params tableName)
  let qa := env.getFilters r params tableName ⟨tableName⟩
  match applyListModifier schema s qa.1 qa.2 with
  | none => ⟨[], some nilDereference⟩
  | some lm =>
    (executeList env r s modelName params log (appendTail env r params SQL lm.2.1) lm.2.2
      fc.2).after lm.1

/-- Lines 170-194, the branch "Read One". -/
def readOne (env : Env) (r : Request) (s : Option Session) (modelName : String)
    (params : Params) (log : Bool) (id : String) : Outcome :=
  let m := env.Get modelName "id = ?" [.str id]
  let found := decide (goInt (GetID m) ≠ 0)
  let rowsCount : Int := if found then 1 else 0
  let preload := decide (params.index "$preload" = "1")
  let evPre : List Event := if preload then [.Preload m] else []
  let m := if preload then env.Preload m else m
  let i : Result := if found then .one m else .null
  (logAsync log s
      (fun user => createAPIReadLog modelName (goInt (GetID m)) rowsCount [("id", id)] user r)).after
    ([.NewModel modelName true, .Get modelName "id = ?" [.str id]] ++ evPre ++
      [.returnDAPIJSON "ok" i params "read" modelName])

/-- Line 15: `urlParts := strings.Split(r.URL.Path, "/")`. -/
def urlParts (r : Request) : List String :=
  strings_Split r.Path '/'

/-- The Go index expression `urlParts[i]`.  The handler only uses indices that
are in range: 0 (`strings.Split` never returns an empty slice) and 2 (under
`len(urlParts) == 3`). -/
def segment (parts : List String) (i : Nat) : String :=
  parts.getD i ""

/-- Line 16: `modelName := urlParts[0]`. -/
def modelName (r : Request) : String :=
  segment (urlParts r) 0

/-- The handler `dAPIReadHandler(w, r, s)`. -/
def dAPIReadHandler (env : Env) (r : Request) (s : Option Session) : Outcome :=
  let model := env.NewModel (modelName r)
  let params := env.getURLArgs r
  let schema := env.getSchema (modelName r)
  let perm := checkPermission env model (modelName r) r s
  let start : List Event := [.NewModel (modelName r) false, .getSchema (modelName r)] ++ perm.1
  if !perm.2 then ⟨start, none⟩
  else
    let lg := logRequired env model r
    if (urlParts r).length = 2 then
      (readMultiple env r s (modelName r) params schema lg.2).after (start ++ lg.1)
    else if (urlParts r).length = 3 then
      (readOne env r s (modelName r) params lg.2 (segment (urlParts r) 2)).after (start ++ lg.1)
    else
      ⟨start ++ lg.1 ++
        [.WriteHeader 404, .ReturnJSON "error" ("invalid format (" ++ r.Path ++ ")")], none⟩

/-- The query an `apiRead` call hands to the dialect driver. -/
def queryOf : Event → Option (String × List Value)
  | .apiRead SQL args _ _ => some (SQL, args)
  | _ => none

/-- The query handed to the dialect driver in a run, if any. -/
def driverQuery (o : Outcome) : Option (String × List Value) :=
  o.events.findSome? queryOf

/-! ## A concrete deployment: the model "book" -/

/-- A driver that returns one row. -/
def bookDriver : Driver :=
  ⟨fun _ _ _ _ => .ok (1, [⟨1, [("title", .str "Dune")]⟩])⟩

/-- The tenant scoping list modifier of the book model. -/
def tenantModifier : SchemaInfo → User → String × List Value :=
  fun _ _ => ("tenant_id = ?", [.int 5])

/-- A deployment with one kind of model, whose table carries the model's name:
`model` gives the capability hooks, `tenant` says whether the schema has the
tenant list modifier, `log` is the package setting `APILogRead`, `access` the
role-based Read flag of every user, and `found` says whether `Get` finds a
row. -/
def bookEnv (model : Model) (tenant log access found : Bool) : Env where
  NewModel := fun _ => model
  getSchema := fun n => ⟨n, if tenant then some tenantModifier else none⟩
  getURLArgs := fun _ => [("title", "Dune")]
  GetAccessRead := fun _ _ => access
  APILogRead := log
  getQueryFields := fun _ _ _ => ("", false)
  getQueryJoin := fun _ _ _ => ""
  getFilters := fun _ _ _ _ => ("title = ?", [.str "Dune"])
  getQueryGroupBy := fun _ _ => ""
  getQueryOrder := fun _ _ => ""
  getQueryLimit := fun _ _ => ""
  getQueryOffset := fun _ _ => ""
  DebugDB := false
  ReportingLevel := 0
  sqlDialect := fun _ => some bookDriver
  DatabaseType := "sqlite"
  Get := fun _ _ _ => if found then ⟨7, [("title", .str "Dune")]⟩ else ⟨0, []⟩
  Preload := id
  getQueryM2M := fun _ m _ _ => m

/-- A model without capability hooks. -/
def plainModel : Model := ⟨none, none, none⟩

/-- The book deployment for a request `?$distinct=1` without filters: every
fragment of the query is empty. -/
def distinctEnv : Env :=
  { bookEnv plainModel false false true true with
    getURLArgs := fun _ => [("$distinct", "1")]
    getFilters := fun _ _ _ _ => ("", []) }

/-- The session of user ann. -/
def annSession : Session := ⟨⟨"ann"⟩⟩



/-! ## The SQL text as the specification words it -/

/-- A clause of the SQL text: the keyword followed by the fragment when the
fragment is not empty, nothing otherwise. -/
def specClause (kw frag : String) : String :=
  if frag = "" then "" else kw ++ frag

/-- The SQL text of a list read: `SELECT` (or `SELECT DISTINCT`), the
projection or `*`, `FROM` and the table name, then the join, `WHERE`,
`GROUP BY`, `ORDER BY`, `LIMIT` and `OFFSET` clauses in this order. -/
def specSQL (distinct : Bool) (f tableName join predicate groupBy order limit offset : String) :
    String :=
  (if distinct then "SELECT DISTINCT " else "SELECT ") ++ (if f = "" then "*" else f) ++
    " FROM " ++ tableName ++ specClause " " join ++ specClause " WHERE " predicate ++
    specClause " GROUP BY " groupBy ++ specClause " ORDER BY " order ++
    specClause " LIMIT " limit ++ specClause " OFFSET " offset



/-- The pair `(lmQ, lmArgs)` the list modifier of the schema returns in a list
read, `none` when no list modifier is configured (or there is no session to
call it with). -/
def modifierResult (schema : ModelSchema) (s : Option Session) : Option (String × List Value) :=
  match schema.ListModifier, s with
  | some listModifier, some sess => some (listModifier ⟨schema.TableName⟩ sess.User)
  | _, _ => none

/-- The number `N` of bound arguments: those of the filters, and those of the
list modifier when there is one. -/
def expectedArgs (args : List Value) (lm : Option (String × List Value)) : Nat :=
  match lm with
  | some (_, lmArgs) => args.length + lmArgs.length
  | none => args.length



/-! ## Observations on a run -/

/-- The status code of a `WriteHeader` call. -/
def headerOf : Event → Option Nat
  | .WriteHeader code => some code
  | _ => none

/-- The status and result of the payload handed to the response hook. -/
def payloadOf : Event → Option (String × Result)
  | .returnDAPIJSON status result _ _ _ => some (status, result)
  | _ => none

/-- The rows count recorded in a saved audit entry. -/
def rowsCountOf : Event → Option Int
  | .LogSave entry => some entry.Activity.rows_count
  | _ => none

/-- The HTTP status of the response: the first status written, 200 when the
handler writes none. -/
def httpStatus (o : Outcome) : Nat :=
  match o.events.filterMap headerOf with
  | [] => 200
  | code :: _ => code

/-! ## Lemmas on the string functions -/

theorem splitOnChar_of_not_mem (sep : Char) (l : List Char) (h : sep ∉ l) :
    splitOnChar sep l = [l] := by
  induction l with
  | nil => simp [splitOnChar]
  | cons c cs ih =>
    have hc : c ≠ sep := fun e => h (by simp [e])
    have hcs : sep ∉ cs := fun e => h (by simp [e])
    simp [splitOnChar, hc, ih hcs]

theorem splitOnChar_append (sep : Char) (a b : List Char) (h : sep ∉ a) :
    splitOnChar sep (a ++ sep :: b) = a :: splitOnChar sep b := by
  induction a with
  | nil => simp [splitOnChar]
  | cons c cs ih =>
    have hc : c ≠ sep := fun e => h (by simp [e])
    have hcs : sep ∉ cs := fun e => h (by simp [e])
    simp [splitOnChar, hc, ih hcs]

theorem strings_Split_two (a b : String) (ha : '/' ∉ a.data) (hb : '/' ∉ b.data) :
    strings_Split (a ++ "/" ++ b) '/' = [a, b] := by
  have h : (a ++ "/" ++ b).data = a.data ++ '/' :: b.data := by
    simp [String.data_append]
  simp [strings_Split, h, splitOnChar_append _ _ _ ha, splitOnChar_of_not_mem _ _ hb]

theorem strings_Split_three (a b c : String) (ha : '/' ∉ a.data) (hb : '/' ∉ b.data)
    (hc : '/' ∉ c.data) :
    strings_Split (a ++ "/" ++ b ++ "/" ++ c) '/' = [a, b, c] := by
  have h : (a ++ "/" ++ b ++ "/" ++ c).data = a.data ++ '/' :: (b.data ++ '/' :: c.data) := by
    simp [String.data_append]
  simp [strings_Split, h, splitOnChar_append _ _ _ ha, splitOnChar_append _ _ _ hb,
    splitOnChar_of_not_mem _ _ hc]

theorem placeholders_append (a b : String) :
    placeholders (a ++ b) = placeholders a + placeholders b := by
  simp [placeholders, String.data_append]

theorem replaceAux_count_zero (c : Char) (old new : List Char) (hn : new.count c = 0) :
    ∀ (s : List Char) (k : Nat), s.count c = 0 → (replaceAux old new k s).count c = 0 := by
  intro s
  induction s with
  | nil => intro k _; cases k <;> simp [replaceAux]
  | cons d ds ih =>
    intro k h
    have hd : (d == c) = false := by
      cases hdc : d == c
      · rfl
      · simp [List.count_cons, hdc] at h
    have hds : ds.count c = 0 := by
      simpa [List.count_cons, hd] using h
    cases k with
    | succ k => simpa [replaceAux] using ih k hds
    | zero =>
      unfold replaceAux
      split
      · simp [List.count_append, hn, ih _ hds]
      · simp [List.count_cons, hd, ih _ hds]

theorem replaceAux_of_not_contains (old new : List Char) :
    ∀ s : List Char, containsAux old s = false → replaceAux old new 0 s = s := by
  intro s
  induction s with
  | nil => intro _; simp [replaceAux]
  | cons d ds ih =>
    intro h
    simp only [containsAux, Bool.or_eq_false_iff] at h
    simp [replaceAux, h.1, ih h.2]

theorem replace_skeleton (t F : List Char)
    (h : containsAux "\x7bFIELDS\x7d".data t = false) :
    replaceAux "\x7bFIELDS\x7d".data F 0
        (replaceAux "\x7bTABLE_NAME\x7d".data t 0
          "SELECT \x7bFIELDS\x7d FROM \x7bTABLE_NAME\x7d".data) =
      "SELECT ".data ++ F ++ " FROM ".data ++ t := by
  have h1 : ("SELECT \x7bFIELDS\x7d FROM \x7bTABLE_NAME\x7d" : String).data =
    ['S','E','L','E','C','T',' ','{','F','I','E','L','D','S','}',' ','F','R','O','M',' ',
     '{','T','A','B','L','E','_','N','A','M','E','}'] := rfl
  have h2 : ("\x7bTABLE_NAME\x7d" : String).data =
    ['{','T','A','B','L','E','_','N','A','M','E','}'] := rfl
  have h3 : ("\x7bFIELDS\x7d" : String).data = ['{','F','I','E','L','D','S','}'] := rfl
  have h4 : ("SELECT " : String).data = ['S','E','L','E','C','T',' '] := rfl
  have h5 : (" FROM " : String).data = [' ','F','R','O','M',' '] := rfl
  have h6 := replaceAux_of_not_contains _ F t h
  rw [h3] at h6
  rw [h1, h2, h3, h4, h5]
  simp [replaceAux, List.isPrefixOf, h6]

theorem replace_skeleton_distinct (t F : List Char)
    (h : containsAux "\x7bFIELDS\x7d".data t = false) :
    replaceAux "\x7bFIELDS\x7d".data F 0
        (replaceAux "\x7bTABLE_NAME\x7d".data t 0
          "SELECT DISTINCT \x7bFIELDS\x7d FROM \x7bTABLE_NAME\x7d".data) =
      "SELECT DISTINCT ".data ++ F ++ " FROM ".data ++ t := by
  have h1 : ("SELECT DISTINCT \x7bFIELDS\x7d FROM \x7bTABLE_NAME\x7d" : String).data =
    ['S','E','L','E','C','T',' ','D','I','S','T','I','N','C','T',' ',
     '{','F','I','E','L','D','S','}',' ','F','R','O','M',' ',
     '{','T','A','B','L','E','_','N','A','M','E','}'] := rfl
  have h2 : ("\x7bTABLE_NAME\x7d" : String).data =
    ['{','T','A','B','L','E','_','N','A','M','E','}'] := rfl
  have h3 : ("\x7bFIELDS\x7d" : String).data = ['{','F','I','E','L','D','S','}'] := rfl
  have h4 : ("SELECT DISTINCT " : String).data =
    ['S','E','L','E','C','T',' ','D','I','S','T','I','N','C','T',' '] := rfl
  have h5 : (" FROM " : String).data = [' ','F','R','O','M',' '] := rfl
  have h6 := replaceAux_of_not_contains _ F t h
  rw [h3] at h6
  rw [h1, h2, h3, h4, h5]
  simp [replaceAux, List.isPrefixOf, h6]

theorem selectFrom_eq (params : Params) (t f : String)
    (h : strings_Contains t "\x7bFIELDS\x7d" = false) :
    selectFrom params t f =
      (if params.lookup "$distinct" = some "1" then "SELECT DISTINCT " else "SELECT ") ++
        (if f = "" then "*" else f) ++ " FROM " ++ t := by
  unfold strings_Contains at h
  unfold selectFrom strings_Replace
  apply String.ext
  by_cases hd : params.lookup "$distinct" = some "1" <;> by_cases hf : f = "" <;>
    simp only [hd, hf, if_true, if_false, ne_eq, not_true_eq_false, not_false_eq_true,
      String.data_append, replace_skeleton _ _ h, replace_skeleton_distinct _ _ h]

theorem selectFrom_placeholders (params : Params) (t f : String)
    (ht : placeholders t = 0) (hf : placeholders f = 0) :
    placeholders (selectFrom params t f) = 0 := by
  unfold placeholders at *
  have hstar : ("*" : String).data.count '?' = 0 := by decide
  have hs1 : ("SELECT DISTINCT \x7bFIELDS\x7d FROM \x7bTABLE_NAME\x7d" : String).data.count '?' = 0 := by
    decide
  have hs2 : ("SELECT \x7bFIELDS\x7d FROM \x7bTABLE_NAME\x7d" : String).data.count '?' = 0 := by
    decide
  unfold selectFrom strings_Replace
  by_cases hd : params.lookup "$distinct" = some "1" <;> by_cases hfe : f = "" <;>
    simp only [hd, hfe, if_true, if_false, ne_eq, not_true_eq_false, not_false_eq_true] <;>
    apply replaceAux_count_zero <;> first | assumption | (apply replaceAux_count_zero <;> assumption)

/-! ## The permission gate -/

theorem checkPermission_allowed_events (env : Env) (model : Model) (name : String)
    (r : Request) (s : Option Session) (h : (checkPermission env model name r s).2 = true) :
    ∀ e ∈ (checkPermission env model name r s).1,
      e = .APIDisabledRead ∨ e = .APIPublicRead ∨ ∃ user, e = .GetAccess user name := by
  revert h
  unfold checkPermission disableCheck publicCheck roleCheck permissionDenied
  rcases model.APIDisabledReader with _ | f <;>
    rcases model.APIPublicReader with _ | g <;> rcases s with _ | sess <;>
    simp only [] <;> (repeat' split) <;> simp_all

theorem logRequired_events (env : Env) (model : Model) (r : Request) :
    ∀ e ∈ (logRequired env model r).1, e = .APILogRead := by
  unfold logRequired
  cases model.APILogReader <;> simp

theorem filterMap_eq_nil_of {β : Type} (f : Event → Option β) (l : List Event)
    (h : ∀ e ∈ l, f e = none) : l.filterMap f = [] := by
  induction l with
  | nil => rfl
  | cons e es ih =>
    have he : f e = none := h e (by simp)
    have hes : ∀ x ∈ es, f x = none := fun x hx => h x (by simp [hx])
    simp [List.filterMap_cons, he, ih hes]

theorem goInt_GetID_ne_zero (m : Entity) : goInt (GetID m) ≠ 0 ↔ GetID m ≠ 0 := by
  have hlt : GetID m < 2 ^ 64 := Nat.mod_lt _ (by norm_num)
  have hmod : GetID m % 2 ^ 64 = GetID m := Nat.mod_eq_of_lt hlt
  unfold goInt
  rw [hmod]
  split <;> omega

theorem logAsync_events_no_header (log : Bool) (s : Option Session) (modelName : String)
    (ID rowsCount : Int) (params : Params) (r : Request) (code : Nat) :
    Event.WriteHeader code ∉
      (logAsync log s (fun user => createAPIReadLog modelName ID rowsCount params user r)).events := by
  unfold logAsync createAPIReadLog
  cases log <;> cases s <;> simp

theorem Trail_no_header (env : Env) (level : Int) (msg : String) (i : List Operand)
    (code : Nat) : Event.WriteHeader code ∉ Trail env level msg i := by
  unfold Trail
  split <;> simp

theorem executeList_no_401 (env : Env) (r : Request) (s : Option Session) (modelName : String)
    (params : Params) (log : Bool) (SQL : String) (args : List Value) (customSchema : Bool) :
    Event.WriteHeader 401 ∉
      (executeList env r s modelName params log SQL args customSchema).events := by
  have hT := fun level msg i => Trail_no_header env level msg i 401
  have hL := fun ID rowsCount => logAsync_events_no_header log s modelName ID rowsCount params r 401
  unfold executeList
  cases env.DebugDB <;> cases customSchema <;> cases env.sqlDialect env.DatabaseType <;>
    simp [hT, Outcome.after]
  all_goals (split <;> simp [hT, hL])

theorem applyListModifier_no_header (schema : ModelSchema) (s : Option Session) (q : String)
    (args : List Value) (lm : List Event × String × List Value)
    (h : applyListModifier schema s q args = some lm) (code : Nat) :
    Event.WriteHeader code ∉ lm.1 := by
  unfold applyListModifier at h
  rcases hl : schema.ListModifier with _ | f <;> rcases s with _ | sess <;>
    simp only [hl] at h
  · cases h; simp
  · cases h; simp
  · cases h
  · split at h <;> cases h <;> simp

theorem readMultiple_no_401 (env : Env) (r : Request) (s : Option Session) (modelName : String)
    (params : Params) (schema : ModelSchema) (log : Bool) :
    Event.WriteHeader 401 ∉ (readMultiple env r s modelName params schema log).events := by
  unfold readMultiple
  simp only []
  split
  · simp
  · next lm h =>
    simp [Outcome.after, executeList_no_401, applyListModifier_no_header _ _ _ _ _ h]

theorem readOne_no_header (env : Env) (r : Request) (s : Option Session) (modelName : String)
    (params : Params) (log : Bool) (id : String) (code : Nat) :
    Event.WriteHeader code ∉ (readOne env r s modelName params log id).events := by
  unfold readOne
  simp [Outcome.after, logAsync_events_no_header]

theorem logRequired_no_header (env : Env) (model : Model) (r : Request) (code : Nat) :
    Event.WriteHeader code ∉ (logRequired env model r).1 := by
  unfold logRequired
  cases model.APILogReader <;> simp

/-- C1. When the model implements the disable-override and `APIDisabledRead`
returns true, the handler answers 401 with the body
`{"status":"error","err_msg":"Permission denied"}` and returns, for every
request, session, public-override and role-based access: after the two registry
lookups the only calls of the run are the disable hook and the two response
writes, so neither the public-override nor the role lookup is consulted and no
query reaches the driver. -/
theorem disabled_read_denies (env : Env) (r : Request) (s : Option Session)
    (disableReader : Request → Bool)
    (himpl : (env.NewModel (modelName r)).APIDisabledReader =
      some disableReader)
    (hdis : disableReader r = true) :
    dAPIReadHandler env r s =
        ⟨[.NewModel (modelName r) false,
          .getSchema (modelName r),
          .APIDisabledRead, .WriteHeader 401, .ReturnJSON "error" "Permission denied"], none⟩ ∧
      driverQuery (dAPIReadHandler env r s) = none := by
  have h : dAPIReadHandler env r s =
      ⟨[.NewModel (modelName r) false,
        .getSchema (modelName r),
        .APIDisabledRead, .WriteHeader 401, .ReturnJSON "error" "Permission denied"], none⟩ := by
    simp [dAPIReadHandler, checkPermission, disableCheck, himpl, hdis, permissionDenied]
  rw [h]
  exact ⟨rfl, rfl⟩

/-- C1, witness: the book model disabled for reading although it is public and
the user has role-based access. -/
theorem disabled_read_denies_witness :
    dAPIReadHandler (bookEnv ⟨some fun _ => true, some fun _ => true, none⟩ true true true true)
        ⟨"book/read", "10.0.0.1"⟩ (some annSession) =
      ⟨[.NewModel "book" false, .getSchema "book", .APIDisabledRead, .WriteHeader 401,
        .ReturnJSON "error" "Permission denied"], none⟩ :=
  (disabled_read_denies
    (bookEnv ⟨some fun _ => true, some fun _ => true, none⟩ true true true true)
    ⟨"book/read", "10.0.0.1"⟩ (some annSession) (fun _ => true) rfl rfl).1

/-- C2. When the model implements no disable-override and `APIPublicRead`
returns true, the permission gate grants access for every session state (absent
session and role-based Read false included): the gate consults the public hook
only, reports that the handler goes on, and no run of the handler writes
status 401. -/
theorem public_read_grants (env : Env) (r : Request) (s : Option Session)
    (publicReader : Request → Bool)
    (hno : (env.NewModel (modelName r)).APIDisabledReader = none)
    (himpl : (env.NewModel (modelName r)).APIPublicReader =
      some publicReader)
    (hpub : publicReader r = true) :
    checkPermission env (env.NewModel (modelName r))
        (modelName r) r s = ([.APIPublicRead], true) ∧
      Event.WriteHeader 401 ∉ (dAPIReadHandler env r s).events := by
  have h : checkPermission env (env.NewModel (modelName r))
      (modelName r) r s = ([.APIPublicRead], true) := by
    simp [checkPermission, disableCheck, publicCheck, roleCheck, hno, himpl, hpub]
  refine ⟨h, ?_⟩
  unfold dAPIReadHandler
  simp only [h]
  simp [Outcome.after, logRequired_no_header, readMultiple_no_401, readOne_no_header]
  split
  · simp [logRequired_no_header, readMultiple_no_401]
  · split <;> simp [logRequired_no_header, readOne_no_header]

/-- C2, witness: the public book model read without a session, by a deployment
whose role-based Read flag is false. -/
theorem public_read_grants_witness :
    checkPermission (bookEnv ⟨none, some fun _ => true, none⟩ false false false true)
        ⟨none, some fun _ => true, none⟩ "book" ⟨"book/read", "10.0.0.1"⟩ none =
        ([.APIPublicRead], true) ∧
      Event.WriteHeader 401 ∉
        (dAPIReadHandler (bookEnv ⟨none, some fun _ => true, none⟩ false false false true)
          ⟨"book/read", "10.0.0.1"⟩ none).events :=
  public_read_grants (bookEnv ⟨none, some fun _ => true, none⟩ false false false true)
    ⟨"book/read", "10.0.0.1"⟩ none (fun _ => true) rfl rfl rfl

/-! ## The query of a list read -/

theorem findSome_queryOf_append (evs rest : List Event) (h : ∀ e ∈ evs, queryOf e = none) :
    (evs ++ rest).findSome? queryOf = rest.findSome? queryOf := by
  induction evs with
  | nil => rfl
  | cons e es ih =>
    have he : queryOf e = none := h e (by simp)
    have hes : ∀ x ∈ es, queryOf x = none := fun x hx => h x (by simp [hx])
    simp [List.findSome?, he, ih hes]

theorem checkPermission_no_query (env : Env) (model : Model) (name : String) (r : Request)
    (s : Option Session) (h : (checkPermission env model name r s).2 = true) :
    ∀ e ∈ (checkPermission env model name r s).1, queryOf e = none := by
  intro e he
  rcases checkPermission_allowed_events env model name r s h e he with h | h | ⟨u, h⟩ <;>
    subst h <;> rfl

theorem logRequired_no_query (env : Env) (model : Model) (r : Request) :
    ∀ e ∈ (logRequired env model r).1, queryOf e = none := by
  intro e he
  rw [logRequired_events env model r e he]
  rfl

theorem applyListModifier_no_query (schema : ModelSchema) (s : Option Session) (q : String)
    (args : List Value) (lm : List Event × String × List Value)
    (h : applyListModifier schema s q args = some lm) :
    ∀ e ∈ lm.1, queryOf e = none := by
  unfold applyListModifier at h
  rcases hl : schema.ListModifier with _ | f <;> rcases s with _ | sess <;>
    simp only [hl] at h
  · cases h; simp
  · cases h; simp
  · cases h
  · split at h <;> cases h <;> simp [queryOf]

theorem Trail_no_query (env : Env) (level : Int) (msg : String) (i : List Operand) :
    ∀ e ∈ Trail env level msg i, queryOf e = none := by
  unfold Trail
  split <;> simp [queryOf]

theorem executeList_query (env : Env) (r : Request) (s : Option Session) (name : String)
    (params : Params) (log : Bool) (SQL : String) (args : List Value) (customSchema : Bool)
    (driver : Driver) (hdrv : env.sqlDialect env.DatabaseType = some driver) :
    (executeList env r s name params log SQL args customSchema).events.findSome? queryOf =
      some (SQL, args) := by
  have hT := fun level msg i => Trail_no_query env level msg i
  unfold executeList
  simp only [hdrv]
  have hpre : ∀ e ∈ (if env.DebugDB = true then
      Trail env DEBUG SQL [] ++ Trail env DEBUG "%#v" [Operand.values args] else []) ++
      (if (!customSchema) = true then [Event.NewModelArray name true] else []),
      queryOf e = none := by
    intro e he
    rcases List.mem_append.1 he with h | h
    · split at h
      · rcases List.mem_append.1 h with h | h <;> exact hT _ _ _ e h
      · simp at h
    · split at h <;> simp at h
      subst h; rfl
  split
  · simp only [List.append_assoc]
    rw [← List.append_assoc, findSome_queryOf_append _ _ hpre]
    simp [queryOf]
  · simp only [Outcome.after, List.append_assoc]
    rw [← List.append_assoc, findSome_queryOf_append _ _ hpre]
    simp [queryOf]

theorem driverQuery_list (env : Env) (r : Request) (s : Option Session) (driver : Driver)
    (lm : List Event × String × List Value)
    (hperm : (checkPermission env (env.NewModel (modelName r)) (modelName r) r s).2 = true)
    (hlist : (urlParts r).length = 2)
    (hdrv : env.sqlDialect env.DatabaseType = some driver)
    (happ : applyListModifier (env.getSchema (modelName r)) s
      (env.getFilters r (env.getURLArgs r) (env.getSchema (modelName r)).TableName
        ⟨(env.getSchema (modelName r)).TableName⟩).1
      (env.getFilters r (env.getURLArgs r) (env.getSchema (modelName r)).TableName
        ⟨(env.getSchema (modelName r)).TableName⟩).2 = some lm) :
    driverQuery (dAPIReadHandler env r s) =
      some (appendTail env r (env.getURLArgs r)
        (appendClause
          (selectFrom (env.getURLArgs r) (env.getSchema (modelName r)).TableName
            (env.getQueryFields r (env.getURLArgs r) (env.getSchema (modelName r)).TableName).1)
          " " (env.getQueryJoin r (env.getURLArgs r) (env.getSchema (modelName r)).TableName))
        lm.2.1, lm.2.2) := by
  unfold driverQuery dAPIReadHandler
  simp only [hperm, hlist, Bool.not_true, if_true, Bool.false_eq_true, if_false, Outcome.after,
    readMultiple, happ]
  have h1 : ∀ e ∈ ([Event.NewModel (modelName r) false, Event.getSchema (modelName r)] ++
      (checkPermission env (env.NewModel (modelName r)) (modelName r) r s).1 ++
      (logRequired env (env.NewModel (modelName r)) r).1) ++ lm.1, queryOf e = none := by
    intro e he
    simp only [List.mem_append, List.mem_cons, List.mem_singleton, List.not_mem_nil,
      or_false] at he
    rcases he with ((((h | h) | h) | h) | h)
    · subst h; rfl
    · subst h; rfl
    · exact checkPermission_no_query _ _ _ _ _ hperm e h
    · exact logRequired_no_query _ _ _ e h
    · exact applyListModifier_no_query _ _ _ _ _ happ e h
  rw [← List.append_assoc, findSome_queryOf_append _ _ h1]
  exact executeList_query env r s _ _ _ _ _ _ driver hdrv

theorem appendClause_eq (SQL kw frag : String) :
    appendClause SQL kw frag = SQL ++ specClause kw frag := by
  unfold appendClause specClause
  by_cases h : frag = "" <;> simp [h]

theorem appendTail_eq (env : Env) (r : Request) (params : Params) (SQL q : String) :
    appendTail env r params SQL q =
      SQL ++ specClause " WHERE " q ++ specClause " GROUP BY " (env.getQueryGroupBy r params) ++
        specClause " ORDER BY " (env.getQueryOrder r params) ++
        specClause " LIMIT " (env.getQueryLimit r params) ++
        specClause " OFFSET " (env.getQueryOffset r params) := by
  simp only [appendTail, appendClause_eq]

theorem placeholders_specClause (kw frag : String) (hkw : placeholders kw = 0) :
    placeholders (specClause kw frag) = placeholders frag := by
  unfold specClause
  by_cases h : frag = ""
  · subst h; simp
  · simp [h, placeholders_append, hkw]

theorem lookup_distinct_iff (params : Params) :
    params.lookup "$distinct" = some "1" ↔ params.index "$distinct" = "1" := by
  unfold Params.index
  cases h : List.lookup "$distinct" params with
  | none => simp
  | some v => simp

/-- C7, as the code has it.  For a permitted list read whose table name does
not contain the text `{FIELDS}`, the SQL text handed to the driver is `SELECT `
(or `SELECT DISTINCT ` exactly when `params["$distinct"]` is `"1"`), the
projection of `getQueryFields` or `*` when that is empty, ` FROM ` and the
table name, followed in this order by the join, `WHERE`, `GROUP BY`,
`ORDER BY`, `LIMIT` and `OFFSET` pieces, each present exactly when its fragment
is not empty.  With every fragment empty it is `SELECT * FROM ` and the table
name when `params["$distinct"]` is not `"1"`, and `SELECT DISTINCT * FROM ` and
the table name when it is.  The predicate and the arguments are those left by
the list-modifier step. -/
theorem list_sql_shape (env : Env) (r : Request) (s : Option Session) (driver : Driver)
    (evs : List Event) (predicate : String) (args : List Value)
    (hperm : (checkPermission env (env.NewModel (modelName r)) (modelName r) r s).2 = true)
    (hlist : (urlParts r).length = 2)
    (hdrv : env.sqlDialect env.DatabaseType = some driver)
    (happ : applyListModifier (env.getSchema (modelName r)) s
      (env.getFilters r (env.getURLArgs r) (env.getSchema (modelName r)).TableName
        ⟨(env.getSchema (modelName r)).TableName⟩).1
      (env.getFilters r (env.getURLArgs r) (env.getSchema (modelName r)).TableName
        ⟨(env.getSchema (modelName r)).TableName⟩).2 = some (evs, predicate, args))
    (htab : strings_Contains (env.getSchema (modelName r)).TableName "\x7bFIELDS\x7d" = false) :
    driverQuery (dAPIReadHandler env r s) =
        some (specSQL (decide ((env.getURLArgs r).index "$distinct" = "1"))
          (env.getQueryFields r (env.getURLArgs r) (env.getSchema (modelName r)).TableName).1
          (env.getSchema (modelName r)).TableName
          (env.getQueryJoin r (env.getURLArgs r) (env.getSchema (modelName r)).TableName)
          predicate
          (env.getQueryGroupBy r (env.getURLArgs r))
          (env.getQueryOrder r (env.getURLArgs r))
          (env.getQueryLimit r (env.getURLArgs r))
          (env.getQueryOffset r (env.getURLArgs r)), args) ∧
      ((env.getQueryFields r (env.getURLArgs r) (env.getSchema (modelName r)).TableName).1 = "" →
        env.getQueryJoin r (env.getURLArgs r) (env.getSchema (modelName r)).TableName = "" →
        predicate = "" →
        env.getQueryGroupBy r (env.getURLArgs r) = "" →
        env.getQueryOrder r (env.getURLArgs r) = "" →
        env.getQueryLimit r (env.getURLArgs r) = "" →
        env.getQueryOffset r (env.getURLArgs r) = "" →
        driverQuery (dAPIReadHandler env r s) =
          some ((if (env.getURLArgs r).index "$distinct" = "1" then "SELECT DISTINCT * FROM "
              else "SELECT * FROM ") ++ (env.getSchema (modelName r)).TableName, args)) := by
  have h := driverQuery_list env r s driver _ hperm hlist hdrv happ
  have hsql : appendTail env r (env.getURLArgs r)
      (appendClause
        (selectFrom (env.getURLArgs r) (env.getSchema (modelName r)).TableName
          (env.getQueryFields r (env.getURLArgs r) (env.getSchema (modelName r)).TableName).1)
        " " (env.getQueryJoin r (env.getURLArgs r) (env.getSchema (modelName r)).TableName))
      predicate =
      specSQL (decide ((env.getURLArgs r).index "$distinct" = "1"))
        (env.getQueryFields r (env.getURLArgs r) (env.getSchema (modelName r)).TableName).1
        (env.getSchema (modelName r)).TableName
        (env.getQueryJoin r (env.getURLArgs r) (env.getSchema (modelName r)).TableName)
        predicate
        (env.getQueryGroupBy r (env.getURLArgs r))
        (env.getQueryOrder r (env.getURLArgs r))
        (env.getQueryLimit r (env.getURLArgs r))
        (env.getQueryOffset r (env.getURLArgs r)) := by
    rw [appendTail_eq, appendClause_eq, selectFrom_eq _ _ _ htab]
    unfold specSQL
    simp only [lookup_distinct_iff, decide_eq_true_eq]
  rw [hsql] at h
  refine ⟨h, ?_⟩
  intro hf hj hp hg ho hl hoff
  rw [h, hf, hj, hp, hg, ho, hl, hoff]
  by_cases hd : (env.getURLArgs r).index "$distinct" = "1" <;> simp [specSQL, specClause, hd]

/-- C7, witness: the list read of the unscoped book model, and the list read
with `$distinct=1` and every fragment empty. -/
theorem list_sql_shape_witness :
    driverQuery (dAPIReadHandler (bookEnv plainModel false false true true)
        ⟨"book/read", "10.0.0.1"⟩ (some annSession)) =
        some ("SELECT * FROM book WHERE title = ?", [.str "Dune"]) ∧
      driverQuery (dAPIReadHandler distinctEnv ⟨"book/read", "10.0.0.1"⟩ (some annSession)) =
        some ("SELECT DISTINCT * FROM book", []) :=
  ⟨(list_sql_shape (bookEnv plainModel false false true true) ⟨"book/read", "10.0.0.1"⟩
      (some annSession) bookDriver [] "title = ?" [.str "Dune"] (by decide) (by decide) rfl
      (by decide) (by decide)).1,
    (list_sql_shape distinctEnv ⟨"book/read", "10.0.0.1"⟩ (some annSession) bookDriver [] "" []
      (by decide) (by decide) rfl (by decide) (by decide)).2 rfl rfl rfl rfl rfl rfl rfl⟩

/-- C7, counterexample: a permitted list read of table book with
`params["$distinct"]` equal to `"1"` and every fragment (projection, join,
predicate, group-by, order, limit, offset) empty.  The SQL handed to the driver
is `SELECT DISTINCT * FROM book`, not `SELECT * FROM book`. -/
theorem distinct_all_empty_counterexample :
    (distinctEnv.getQueryFields ⟨"book/read", "10.0.0.1"⟩ [("$distinct", "1")] "book").1 = "" ∧
      distinctEnv.getQueryJoin ⟨"book/read", "10.0.0.1"⟩ [("$distinct", "1")] "book" = "" ∧
      applyListModifier (distinctEnv.getSchema "book") (some annSession)
        (distinctEnv.getFilters ⟨"book/read", "10.0.0.1"⟩ [("$distinct", "1")] "book"
          ⟨"book"⟩).1
        (distinctEnv.getFilters ⟨"book/read", "10.0.0.1"⟩ [("$distinct", "1")] "book"
          ⟨"book"⟩).2 = some ([], "", []) ∧
      distinctEnv.getQueryGroupBy ⟨"book/read", "10.0.0.1"⟩ [("$distinct", "1")] = "" ∧
      distinctEnv.getQueryOrder ⟨"book/read", "10.0.0.1"⟩ [("$distinct", "1")] = "" ∧
      distinctEnv.getQueryLimit ⟨"book/read", "10.0.0.1"⟩ [("$distinct", "1")] = "" ∧
      distinctEnv.getQueryOffset ⟨"book/read", "10.0.0.1"⟩ [("$distinct", "1")] = "" ∧
      strings_Contains (distinctEnv.getSchema "book").TableName "\x7bFIELDS\x7d" = false ∧
      driverQuery (dAPIReadHandler distinctEnv ⟨"book/read", "10.0.0.1"⟩ (some annSession)) =
        some ("SELECT DISTINCT * FROM book", []) ∧
      driverQuery (dAPIReadHandler distinctEnv ⟨"book/read", "10.0.0.1"⟩ (some annSession)) ≠
        some ("SELECT * FROM " ++ (distinctEnv.getSchema "book").TableName, []) := by
  decide

/-- C5. In a permitted list read in which `getFilters` returns `(q, args)` and
the list modifier of the schema returns `(lmQ, lmArgs)` with `lmQ` not empty,
the SQL text handed to the driver has the `WHERE` predicate `q AND lmQ` when
`q` is not empty and `lmQ` alone when `q` is empty, placed after the select and
join part and before the remaining clauses, and the arguments handed over are
`args` followed by `lmArgs`. -/
theorem list_modifier_appended (env : Env) (r : Request) (sess : Session) (driver : Driver)
    (listModifier : SchemaInfo → User → String × List Value)
    (q lmQ : String) (args lmArgs : List Value)
    (hperm : (checkPermission env (env.NewModel (modelName r)) (modelName r) r
      (some sess)).2 = true)
    (hlist : (urlParts r).length = 2)
    (hdrv : env.sqlDialect env.DatabaseType = some driver)
    (hq : env.getFilters r (env.getURLArgs r) (env.getSchema (modelName r)).TableName
      ⟨(env.getSchema (modelName r)).TableName⟩ = (q, args))
    (hlm : (env.getSchema (modelName r)).ListModifier = some listModifier)
    (hres : listModifier ⟨(env.getSchema (modelName r)).TableName⟩ sess.User = (lmQ, lmArgs))
    (hne : lmQ ≠ "") :
    driverQuery (dAPIReadHandler env r (some sess)) =
      some (appendClause
          (selectFrom (env.getURLArgs r) (env.getSchema (modelName r)).TableName
            (env.getQueryFields r (env.getURLArgs r) (env.getSchema (modelName r)).TableName).1)
          " " (env.getQueryJoin r (env.getURLArgs r) (env.getSchema (modelName r)).TableName) ++
        (" WHERE " ++ (if q = "" then lmQ else q ++ " AND " ++ lmQ)) ++
        specClause " GROUP BY " (env.getQueryGroupBy r (env.getURLArgs r)) ++
        specClause " ORDER BY " (env.getQueryOrder r (env.getURLArgs r)) ++
        specClause " LIMIT " (env.getQueryLimit r (env.getURLArgs r)) ++
        specClause " OFFSET " (env.getQueryOffset r (env.getURLArgs r)), args ++ lmArgs) := by
  have happ : applyListModifier (env.getSchema (modelName r)) (some sess)
      (env.getFilters r (env.getURLArgs r) (env.getSchema (modelName r)).TableName
        ⟨(env.getSchema (modelName r)).TableName⟩).1
      (env.getFilters r (env.getURLArgs r) (env.getSchema (modelName r)).TableName
        ⟨(env.getSchema (modelName r)).TableName⟩).2 =
      some ([.ListModifier sess.User], (if q = "" then lmQ else q ++ " AND " ++ lmQ),
        args ++ lmArgs) := by
    unfold applyListModifier
    simp only [hlm, hres, hq, ne_eq, hne, not_false_eq_true, if_true]
    by_cases hqe : q = "" <;> simp [hqe]
  have hpred : (if q = "" then lmQ else q ++ " AND " ++ lmQ) ≠ "" := by
    by_cases hqe : q = ""
    · simpa [hqe] using hne
    · simp only [hqe, if_false]
      intro h
      have hd := congrArg String.data h
      simp [String.data_append] at hd
  rw [driverQuery_list env r (some sess) driver _ hperm hlist hdrv happ, appendTail_eq]
  simp only [specClause, hpred, if_false]

/-- C5, witness: the scenario of the specification.  Table book, no
projection, join, group-by, order, limit or offset, `q = "title = ?"`,
`args = ["Dune"]` and the tenant list modifier give
`SELECT * FROM book WHERE title = ? AND tenant_id = ?` with `["Dune", 5]`. -/
theorem list_modifier_appended_witness :
    driverQuery (dAPIReadHandler (bookEnv plainModel true true true true)
        ⟨"book/read", "10.0.0.1"⟩ (some annSession)) =
      some ("SELECT * FROM book WHERE title = ? AND tenant_id = ?", [.str "Dune", .int 5]) :=
  list_modifier_appended (bookEnv plainModel true true true true) ⟨"book/read", "10.0.0.1"⟩
    annSession bookDriver tenantModifier "title = ?" "tenant_id = ?" [.str "Dune"] [.int 5]
    (by decide) (by decide) rfl rfl rfl rfl (by decide)

theorem placeholders_listSQL (env : Env) (r : Request) (params : Params) (t f predicate : String)
    (ht : placeholders t = 0) (hf : placeholders f = 0)
    (hj : placeholders (env.getQueryJoin r params t) = 0)
    (hg : placeholders (env.getQueryGroupBy r params) = 0)
    (ho : placeholders (env.getQueryOrder r params) = 0)
    (hl : placeholders (env.getQueryLimit r params) = 0)
    (hoff : placeholders (env.getQueryOffset r params) = 0) :
    placeholders (appendTail env r params
      (appendClause (selectFrom params t f) " " (env.getQueryJoin r params t)) predicate) =
      placeholders predicate := by
  have k1 : placeholders " " = 0 := by decide
  have k2 : placeholders " WHERE " = 0 := by decide
  have k3 : placeholders " GROUP BY " = 0 := by decide
  have k4 : placeholders " ORDER BY " = 0 := by decide
  have k5 : placeholders " LIMIT " = 0 := by decide
  have k6 : placeholders " OFFSET " = 0 := by decide
  rw [appendTail_eq, appendClause_eq]
  simp only [placeholders_append, placeholders_specClause _ _ k1, placeholders_specClause _ _ k2,
    placeholders_specClause _ _ k3, placeholders_specClause _ _ k4,
    placeholders_specClause _ _ k5, placeholders_specClause _ _ k6,
    selectFrom_placeholders params t f ht hf, hj, hg, ho, hl, hoff]
  omega

/-- C6. In a permitted list read that reaches the driver: when the fragment
`q` of `getFilters` has exactly `len(args)` placeholders, the fragment of the
list modifier (when one is configured) has exactly `len(lmArgs)` placeholders,
and the table name, field list, join, group-by, order-by, limit and offset
fragments have none, the SQL text handed to the driver has exactly `N`
placeholders and the argument list handed over has length `N`, where
`N = len(args) + len(lmArgs)`, `lmArgs` counted only when a list modifier is
configured. -/
theorem placeholder_count_matches (env : Env) (r : Request) (s : Option Session)
    (driver : Driver) (q : String) (args : List Value)
    (hperm : (checkPermission env (env.NewModel (modelName r)) (modelName r) r s).2 = true)
    (hlist : (urlParts r).length = 2)
    (hdrv : env.sqlDialect env.DatabaseType = some driver)
    (hreach : (env.getSchema (modelName r)).ListModifier = none ∨ s ≠ none)
    (hfilters : env.getFilters r (env.getURLArgs r) (env.getSchema (modelName r)).TableName
      ⟨(env.getSchema (modelName r)).TableName⟩ = (q, args))
    (hq : placeholders q = args.length)
    (hlm : ∀ lmQ lmArgs, modifierResult (env.getSchema (modelName r)) s = some (lmQ, lmArgs) →
      placeholders lmQ = lmArgs.length)
    (ht : placeholders (env.getSchema (modelName r)).TableName = 0)
    (hf : placeholders
      (env.getQueryFields r (env.getURLArgs r) (env.getSchema (modelName r)).TableName).1 = 0)
    (hj : placeholders
      (env.getQueryJoin r (env.getURLArgs r) (env.getSchema (modelName r)).TableName) = 0)
    (hg : placeholders (env.getQueryGroupBy r (env.getURLArgs r)) = 0)
    (ho : placeholders (env.getQueryOrder r (env.getURLArgs r)) = 0)
    (hl : placeholders (env.getQueryLimit r (env.getURLArgs r)) = 0)
    (hoff : placeholders (env.getQueryOffset r (env.getURLArgs r)) = 0) :
    ∃ SQL bound, driverQuery (dAPIReadHandler env r s) = some (SQL, bound) ∧
      placeholders SQL = expectedArgs args (modifierResult (env.getSchema (modelName r)) s) ∧
      bound.length = expectedArgs args (modifierResult (env.getSchema (modelName r)) s) := by
  have key : ∀ lm : List Event × String × List Value,
      applyListModifier (env.getSchema (modelName r)) s q args = some lm →
      placeholders lm.2.1 = expectedArgs args (modifierResult (env.getSchema (modelName r)) s) →
      lm.2.2.length = expectedArgs args (modifierResult (env.getSchema (modelName r)) s) →
      ∃ SQL bound, driverQuery (dAPIReadHandler env r s) = some (SQL, bound) ∧
        placeholders SQL = expectedArgs args (modifierResult (env.getSchema (modelName r)) s) ∧
        bound.length = expectedArgs args (modifierResult (env.getSchema (modelName r)) s) := by
    intro lm happ h1 h2
    have happ2 : applyListModifier (env.getSchema (modelName r)) s
        (env.getFilters r (env.getURLArgs r) (env.getSchema (modelName r)).TableName
          ⟨(env.getSchema (modelName r)).TableName⟩).1
        (env.getFilters r (env.getURLArgs r) (env.getSchema (modelName r)).TableName
          ⟨(env.getSchema (modelName r)).TableName⟩).2 = some lm := by
      rw [hfilters]; exact happ
    refine ⟨_, _, driverQuery_list env r s driver lm hperm hlist hdrv happ2, ?_, h2⟩
    rw [placeholders_listSQL env r _ _ _ _ ht hf hj hg ho hl hoff]
    exact h1
  rcases hcfg : (env.getSchema (modelName r)).ListModifier with _ | f
  · apply key ([], q, args)
    · simp [applyListModifier, hcfg]
    · simp [modifierResult, hcfg, expectedArgs, hq]
    · simp [modifierResult, hcfg, expectedArgs]
  · rcases s with _ | sess
    · rcases hreach with h | h
      · rw [hcfg] at h; cases h
      · exact absurd rfl h
    · have hres : modifierResult (env.getSchema (modelName r)) (some sess) =
          some ((f ⟨(env.getSchema (modelName r)).TableName⟩ sess.User).1,
            (f ⟨(env.getSchema (modelName r)).TableName⟩ sess.User).2) := by
        simp [modifierResult, hcfg]
      have hcount := hlm _ _ hres
      have kand : placeholders " AND " = 0 := by decide
      by_cases hempty : (f ⟨(env.getSchema (modelName r)).TableName⟩ sess.User).1 = ""
      · have hzero : (f ⟨(env.getSchema (modelName r)).TableName⟩ sess.User).2.length = 0 := by
          rw [← hcount, hempty]; decide
        apply key ([.ListModifier sess.User], q, args)
        · simp [applyListModifier, hcfg, hempty]
        · simp [hres, expectedArgs, hq, hzero]
        · simp [hres, expectedArgs, hzero]
      · apply key ([.ListModifier sess.User],
          (if q ≠ "" then q ++ " AND " else q) ++
            (f ⟨(env.getSchema (modelName r)).TableName⟩ sess.User).1,
          args ++ (f ⟨(env.getSchema (modelName r)).TableName⟩ sess.User).2)
        · simp [applyListModifier, hcfg, hempty]
        · simp only [hres, expectedArgs, placeholders_append, hcount]
          by_cases hqe : q = ""
          · simp [hqe, ← hq]
          · simp [hqe, placeholders_append, kand, hq]
        · simp [hres, expectedArgs]

/-- C6, witness: the scoped book read, two placeholders and two arguments. -/
theorem placeholder_count_matches_witness :
    ∃ SQL bound, driverQuery (dAPIReadHandler (bookEnv plainModel true true true true)
        ⟨"book/list", "10.0.0.2"⟩ (some annSession)) = some (SQL, bound) ∧
      placeholders SQL = 2 ∧ bound.length = 2 :=
  placeholder_count_matches (bookEnv plainModel true true true true) ⟨"book/list", "10.0.0.2"⟩
    (some annSession) bookDriver "title = ?" [.str "Dune"] (by decide) (by decide) rfl
    (Or.inr (by decide)) rfl (by decide)
    (fun lmQ lmArgs h => by cases h; decide)
    (by decide) (by decide) (by decide) (by decide) (by decide) (by decide) (by decide)

/-! ## The single-entity fetch -/

theorem logAsync_rows (log : Bool) (s : Option Session) (name : String) (ID rowsCount : Int)
    (params : Params) (r : Request) :
    (logAsync log s (fun user => createAPIReadLog name ID rowsCount params user r)).events.filterMap
        rowsCountOf = if log && s.isSome then [rowsCount] else [] := by
  unfold logAsync createAPIReadLog
  cases log <;> cases s <;> simp [rowsCountOf]

theorem logAsync_no_payload (log : Bool) (s : Option Session) (name : String)
    (ID rowsCount : Int) (params : Params) (r : Request) :
    (logAsync log s (fun user => createAPIReadLog name ID rowsCount params user r)).events.filterMap
        payloadOf = [] := by
  unfold logAsync createAPIReadLog
  cases log <;> cases s <;> simp [payloadOf]

theorem logAsync_no_header (log : Bool) (s : Option Session) (name : String)
    (ID rowsCount : Int) (params : Params) (r : Request) :
    (logAsync log s (fun user => createAPIReadLog name ID rowsCount params user r)).events.filterMap
        headerOf = [] := by
  unfold logAsync createAPIReadLog
  cases log <;> cases s <;> simp [headerOf]

theorem handler_single (env : Env) (r : Request) (s : Option Session)
    (hperm : (checkPermission env (env.NewModel (modelName r)) (modelName r) r s).2 = true)
    (hone : (urlParts r).length = 3) :
    dAPIReadHandler env r s =
      (readOne env r s (modelName r) (env.getURLArgs r)
          (logRequired env (env.NewModel (modelName r)) r).2 (segment (urlParts r) 2)).after
        ([.NewModel (modelName r) false, .getSchema (modelName r)] ++
          (checkPermission env (env.NewModel (modelName r)) (modelName r) r s).1 ++
          (logRequired env (env.NewModel (modelName r)) r).1) := by
  unfold dAPIReadHandler
  simp [hperm, hone]

theorem handler_list (env : Env) (r : Request) (s : Option Session)
    (hperm : (checkPermission env (env.NewModel (modelName r)) (modelName r) r s).2 = true)
    (hlist : (urlParts r).length = 2) :
    dAPIReadHandler env r s =
      (readMultiple env r s (modelName r) (env.getURLArgs r) (env.getSchema (modelName r))
          (logRequired env (env.NewModel (modelName r)) r).2).after
        ([.NewModel (modelName r) false, .getSchema (modelName r)] ++
          (checkPermission env (env.NewModel (modelName r)) (modelName r) r s).1 ++
          (logRequired env (env.NewModel (modelName r)) r).1) := by
  unfold dAPIReadHandler
  simp [hperm, hlist]

theorem start_observed {β : Type} (f : Event → Option β) (env : Env) (r : Request)
    (s : Option Session)
    (hperm : (checkPermission env (env.NewModel (modelName r)) (modelName r) r s).2 = true)
    (h1 : ∀ n b, f (.NewModel n b) = none) (h2 : ∀ n, f (.getSchema n) = none)
    (h3 : f .APIDisabledRead = none) (h4 : f .APIPublicRead = none)
    (h5 : ∀ u n, f (.GetAccess u n) = none) (h6 : f .APILogRead = none) :
    ([Event.NewModel (modelName r) false, Event.getSchema (modelName r)] ++
      (checkPermission env (env.NewModel (modelName r)) (modelName r) r s).1 ++
      (logRequired env (env.NewModel (modelName r)) r).1).filterMap f = [] := by
  apply filterMap_eq_nil_of
  intro e he
  simp only [List.mem_append, List.mem_cons, List.mem_singleton, List.not_mem_nil,
    or_false] at he
  rcases he with (((h | h) | h) | h)
  · subst h; exact h1 _ _
  · subst h; exact h2 _
  · rcases checkPermission_allowed_events _ _ _ _ _ hperm e h with h | h | ⟨u, h⟩ <;> subst h
    · exact h3
    · exact h4
    · exact h5 _ _
  · rw [logRequired_events _ _ _ e h]; exact h6

/-- C9. In a permitted single-entity fetch (three path segments) the handler
writes no status, so the HTTP status stays 200, and it hands the response hook
exactly one payload, with status `ok`.  When the model populated by
`Get(m, "id = ?", id)` still has primary key 0 the result is null and the rows
count recorded in the audit entry is 0; when the primary key is not 0 the
result is that model (preloaded when `$preload` is `1`) and the rows count
recorded is 1.  The entry is recorded when logging is on and a session is
present. -/
theorem single_fetch_result (env : Env) (r : Request) (s : Option Session)
    (hperm : (checkPermission env (env.NewModel (modelName r)) (modelName r) r s).2 = true)
    (hone : (urlParts r).length = 3) :
    (dAPIReadHandler env r s).events.filterMap headerOf = [] ∧
      httpStatus (dAPIReadHandler env r s) = 200 ∧
      (GetID (env.Get (modelName r) "id = ?" [.str (segment (urlParts r) 2)]) = 0 →
        (dAPIReadHandler env r s).events.filterMap payloadOf = [("ok", .null)] ∧
        (dAPIReadHandler env r s).events.filterMap rowsCountOf =
          if (logRequired env (env.NewModel (modelName r)) r).2 && s.isSome then [0] else []) ∧
      (GetID (env.Get (modelName r) "id = ?" [.str (segment (urlParts r) 2)]) ≠ 0 →
        (dAPIReadHandler env r s).events.filterMap payloadOf =
          [("ok", .one
            (if (env.getURLArgs r).index "$preload" = "1" then
              env.Preload (env.Get (modelName r) "id = ?" [.str (segment (urlParts r) 2)])
            else env.Get (modelName r) "id = ?" [.str (segment (urlParts r) 2)]))] ∧
        (dAPIReadHandler env r s).events.filterMap rowsCountOf =
          if (logRequired env (env.NewModel (modelName r)) r).2 && s.isSome then [1] else []) := by
  have hH := start_observed headerOf env r s hperm (fun _ _ => rfl) (fun _ => rfl) rfl rfl
    (fun _ _ => rfl) rfl
  have hP := start_observed payloadOf env r s hperm (fun _ _ => rfl) (fun _ => rfl) rfl rfl
    (fun _ _ => rfl) rfl
  have hR := start_observed rowsCountOf env r s hperm (fun _ _ => rfl) (fun _ => rfl) rfl rfl
    (fun _ _ => rfl) rfl
  have hhead : (dAPIReadHandler env r s).events.filterMap headerOf = [] := by
    rw [handler_single env r s hperm hone]
    simp only [Outcome.after, List.filterMap_append, hH, readOne, logAsync_no_header]
    split <;> simp [headerOf]
  refine ⟨hhead, ?_, ?_, ?_⟩
  · simp [httpStatus, hhead]
  · intro hzero
    have hnot : ¬ goInt (GetID (env.Get (modelName r) "id = ?"
        [.str (segment (urlParts r) 2)])) ≠ 0 := by
      rw [goInt_GetID_ne_zero]; simpa using hzero
    rw [handler_single env r s hperm hone]
    simp only [Outcome.after, List.filterMap_append, hP, hR, readOne, logAsync_no_payload,
      logAsync_rows, hnot, decide_False, Bool.false_eq_true, if_false]
    constructor
    · split <;> simp_all [payloadOf]
    · split <;> simp_all [rowsCountOf]
  · intro hfound
    have hyes : goInt (GetID (env.Get (modelName r) "id = ?"
        [.str (segment (urlParts r) 2)])) ≠ 0 := by
      rw [goInt_GetID_ne_zero]; exact hfound
    rw [handler_single env r s hperm hone]
    simp only [Outcome.after, List.filterMap_append, hP, hR, readOne, logAsync_no_payload,
      logAsync_rows, hyes, decide_True, if_true]
    constructor
    · split <;> simp_all [payloadOf]
    · split <;> simp_all [rowsCountOf]

/-- C9, witness: fetching book 7 when no row has that id. -/
theorem single_fetch_result_witness :
    (dAPIReadHandler (bookEnv plainModel false true true false) ⟨"book/read/7", "10.0.0.1"⟩
        (some annSession)).events.filterMap payloadOf = [("ok", .null)] ∧
      (dAPIReadHandler (bookEnv plainModel false true true false) ⟨"book/read/7", "10.0.0.1"⟩
        (some annSession)).events.filterMap rowsCountOf = [0] :=
  (single_fetch_result (bookEnv plainModel false true true false) ⟨"book/read/7", "10.0.0.1"⟩
    (some annSession) (by decide) (by decide)).2.2.1 (by decide)

/-! ## Dispatch on the URL path -/

/-- C8, as the code has it.  The model name is the first segment of the URL
path, which carries no leading slash, and the second segment is not looked at:
for a model name and a second segment without `/` and a request that passes the
gate, the path `modelName/segment` is handled as a list read of the model named
`modelName` (model and schema looked up under that name), and the path
`modelName/segment/id`, `id` without `/`, as a single-entity fetch of that
model with the predicate `id = ?` bound to `id`. -/
theorem path_dispatch (env : Env) (r : Request) (s : Option Session) (name command : String)
    (hname : '/' ∉ name.data) (hcmd : '/' ∉ command.data)
    (hperm : (checkPermission env (env.NewModel name) name r s).2 = true) :
    (r.Path = name ++ "/" ++ command →
      dAPIReadHandler env r s =
        (readMultiple env r s name (env.getURLArgs r) (env.getSchema name)
            (logRequired env (env.NewModel name) r).2).after
          ([Event.NewModel name false, Event.getSchema name] ++
            (checkPermission env (env.NewModel name) name r s).1 ++
            (logRequired env (env.NewModel name) r).1)) ∧
      (∀ id : String, '/' ∉ id.data → r.Path = name ++ "/" ++ command ++ "/" ++ id →
        dAPIReadHandler env r s =
            (readOne env r s name (env.getURLArgs r) (logRequired env (env.NewModel name) r).2
                id).after
              ([Event.NewModel name false, Event.getSchema name] ++
                (checkPermission env (env.NewModel name) name r s).1 ++
                (logRequired env (env.NewModel name) r).1) ∧
          Event.Get name "id = ?" [.str id] ∈ (dAPIReadHandler env r s).events) := by
  constructor
  · intro hpath
    have hparts : urlParts r = [name, command] := by
      unfold urlParts; rw [hpath]; exact strings_Split_two name command hname hcmd
    have hmodel : modelName r = name := by
      unfold modelName; rw [hparts]; rfl
    have hlist : (urlParts r).length = 2 := by rw [hparts]; rfl
    rw [← hmodel] at hperm ⊢
    exact handler_list env r s hperm hlist
  · intro id hid hpath
    have hparts : urlParts r = [name, command, id] := by
      unfold urlParts; rw [hpath]; exact strings_Split_three name command id hname hcmd hid
    have hmodel : modelName r = name := by
      unfold modelName; rw [hparts]; rfl
    have hid2 : segment (urlParts r) 2 = id := by rw [hparts]; rfl
    have hone : (urlParts r).length = 3 := by rw [hparts]; rfl
    rw [← hmodel] at hperm
    have h := handler_single env r s hperm hone
    rw [hid2, hmodel] at h
    refine ⟨h, ?_⟩
    rw [h]
    simp [Outcome.after, readOne]

/-- C8, witness: `book/read` is a list read of the model book. -/
theorem path_dispatch_witness :
    dAPIReadHandler (bookEnv plainModel false false true true) ⟨"book/read", "10.0.0.1"⟩
        (some annSession) =
      (readMultiple (bookEnv plainModel false false true true) ⟨"book/read", "10.0.0.1"⟩
          (some annSession) "book" [("title", "Dune")] ⟨"book", none⟩ false).after
        [.NewModel "book" false, .getSchema "book", .GetAccess ⟨"ann"⟩ "book"] :=
  (path_dispatch (bookEnv plainModel false false true true) ⟨"book/read", "10.0.0.1"⟩
    (some annSession) "book" "read" (by decide) (by decide) (by decide)).1 rfl

/-- C8, counterexample: for the paths `/book` and `/book/7` the handler looks
up the model named by the empty first segment, not the model book. -/
theorem leading_slash_counterexample :
    Event.getSchema "book" ∉
        (dAPIReadHandler (bookEnv plainModel false false true true) ⟨"/book", "10.0.0.1"⟩
          (some annSession)).events ∧
      Event.getSchema "" ∈
        (dAPIReadHandler (bookEnv plainModel false false true true) ⟨"/book", "10.0.0.1"⟩
          (some annSession)).events ∧
      driverQuery (dAPIReadHandler (bookEnv plainModel false false true true)
          ⟨"/book", "10.0.0.1"⟩ (some annSession)) =
        some ("SELECT * FROM  WHERE title = ?", [.str "Dune"]) ∧
      Event.Get "book" "id = ?" [.str "7"] ∉
        (dAPIReadHandler (bookEnv plainModel false false true true) ⟨"/book/7", "10.0.0.1"⟩
          (some annSession)).events ∧
      Event.Get "" "id = ?" [.str "7"] ∈
        (dAPIReadHandler (bookEnv plainModel false false true true) ⟨"/book/7", "10.0.0.1"⟩
          (some annSession)).events := by
  decide

/-! ## Public-override and role lookup -/

/-- C3, as the code has it.  For a model with no disable-override and with the
public-override, the gate lets the request pass exactly when `APIPublicRead`
returns true or a session is present whose user has role-based Read access; the
role lookup is made exactly when `APIPublicRead` returns false and a session is
present. -/
theorem public_read_then_role (env : Env) (model : Model) (name : String) (r : Request)
    (s : Option Session) (publicReader : Request → Bool)
    (hno : model.APIDisabledReader = none)
    (himpl : model.APIPublicReader = some publicReader) :
    (checkPermission env model name r s).2 =
        (publicReader r ||
          match s with
          | some sess => env.GetAccessRead sess.User name
          | none => false) ∧
      (∀ user, Event.GetAccess user name ∈ (checkPermission env model name r s).1 ↔
        publicReader r = false ∧ s = some ⟨user⟩) := by
  unfold checkPermission disableCheck publicCheck roleCheck permissionDenied
  simp only [hno, himpl]
  rcases s with _ | sess <;> cases hp : publicReader r <;> simp
  · cases ha : env.GetAccessRead sess.User name <;> simp
    · intro user
      constructor
      · intro h; rw [h]
      · intro h; cases h; rfl
    · intro user
      constructor
      · intro h; rw [h]
      · intro h; cases h; rfl

/-- C3, witness: a public hook that refuses, and a user without access. -/
theorem public_read_then_role_witness :
    (checkPermission (bookEnv ⟨none, some fun _ => false, none⟩ false false false true)
        ⟨none, some fun _ => false, none⟩ "book" ⟨"book/read", "10.0.0.1"⟩
        (some annSession)).2 = false :=
  (public_read_then_role (bookEnv ⟨none, some fun _ => false, none⟩ false false false true)
    ⟨none, some fun _ => false, none⟩ "book" ⟨"book/read", "10.0.0.1"⟩ (some annSession)
    (fun _ => false) rfl rfl).1

/-- C3, counterexample: `APIPublicRead` returns false, a session is present and
the role grants Read; the role lookup is made, the gate lets the request pass
and no status 401 is written. -/
theorem public_false_role_counterexample :
    checkPermission (bookEnv ⟨none, some fun _ => false, none⟩ false false true true)
        ⟨none, some fun _ => false, none⟩ "book" ⟨"book/read", "10.0.0.1"⟩ (some annSession) =
        ([.APIPublicRead, .GetAccess ⟨"ann"⟩ "book"], true) ∧
      Event.WriteHeader 401 ∉
        (dAPIReadHandler (bookEnv ⟨none, some fun _ => false, none⟩ false false true true)
          ⟨"book/read", "10.0.0.1"⟩ (some annSession)).events ∧
      driverQuery (dAPIReadHandler (bookEnv ⟨none, some fun _ => false, none⟩ false false true true)
          ⟨"book/read", "10.0.0.1"⟩ (some annSession)) =
        some ("SELECT * FROM book WHERE title = ?", [.str "Dune"]) := by
  decide

/-! ## Runs the handler should not have -/

/-- C4, the code at the failing input: the model implements the
disable-override, `APIDisabledRead` returns false, there is no public-override
and no session.  The gate makes no role lookup and lets the request pass; the
list read is executed and answered. -/
theorem not_disabled_grants_anonymous :
    checkPermission (bookEnv ⟨some fun _ => false, none, none⟩ false false false true)
        ⟨some fun _ => false, none, none⟩ "book" ⟨"book/read", "10.0.0.1"⟩ none =
        ([.APIDisabledRead], true) ∧
      dAPIReadHandler (bookEnv ⟨some fun _ => false, none, none⟩ false false false true)
          ⟨"book/read", "10.0.0.1"⟩ none =
        ⟨[.NewModel "book" false, .getSchema "book", .APIDisabledRead,
          .NewModelArray "book" true,
          .apiRead "SELECT * FROM book WHERE title = ?" [.str "Dune"] (.modelArray "book") false,
          .getQueryM2M "book" false,
          .returnDAPIJSON "ok" (.many [⟨1, [("title", .str "Dune")]⟩]) [("title", "Dune")]
            "read" "book"], none⟩ := by
  decide

/-- C10, the code at the failing inputs: a request without session admitted
through the public-override ends in a nil-pointer fault when the schema has a
list modifier (before any query is made), and, with logging on, in the log
function of a list read and of a single-entity fetch (after the response). -/
theorem nil_session_faults :
    dAPIReadHandler (bookEnv ⟨none, some fun _ => true, none⟩ true false false true)
        ⟨"book/read", "10.0.0.1"⟩ none =
        ⟨[.NewModel "book" false, .getSchema "book", .APIPublicRead],
          some nilDereference⟩ ∧
      (dAPIReadHandler (bookEnv ⟨none, some fun _ => true, none⟩ false true false true)
        ⟨"book/read", "10.0.0.1"⟩ none).fault = some nilDereference ∧
      (dAPIReadHandler (bookEnv ⟨none, some fun _ => true, none⟩ false true false true)
        ⟨"book/read/7", "10.0.0.1"⟩ none).fault = some nilDereference := by
  decide

end Uadmin
